import Mathlib

/-!
Shallow embedding of the rag-bot repository's conversational
retrieval-and-answer loop, and proofs about it.

Embedded components (one Lean definition per source function, names kept
close to the Python names):

* `src/rag-langraph-bot/chatbot.py` — `DocumentSearchTool.search_documents`,
  the LangGraph workflow nodes `_search_documents`, `_generate_response`,
  `_save_conversation`, and the top-level `RAGLangGraphBot.chat`.
* `src/rag-langraph-bot/cosmos_manager.py` — `get_conversation_history`.
* `src/travel-assistant/backend/tools/doc_search_tool.py` — `doc_search_tool`.
* `src/travel-assistant/backend/workflows/travel_workflow.py` —
  `filter_messages`, `should_continue`, and the workflow graph edges.
* `src/travel-assistant/backend/server.py` — `chat_endpoint` and the
  stream generator of `chat_stream_endpoint`.

External collaborators (the Azure LLM, the Azure Search backend, the Cosmos
container) are modelled as oracle parameters: a function or value of type
`Except String _` whose `error` case stands for the backend raising an
exception.  Python strings are modelled as `String` (a list of characters),
Python floats as `ℚ`.
-/

/-! ### Python string primitives -/

/-- `s.lower()` as a character list: Python `str.lower` maps each character
to its lowercase form (the word lists involved are ASCII, where
`Char.toLower` agrees with Python). -/
def lowerChars (s : String) : List Char := s.data.map Char.toLower

/-- `w` occurs at the head of `l` (helper for the Python `in` operator). -/
def leadsWith : List Char → List Char → Bool
  | [], _ => true
  | _ :: _, [] => false
  | c :: w, d :: l => c == d && leadsWith w l

/-- Python's substring test `w in l`: `w` occurs contiguously in `l`. -/
def occursIn (w : List Char) : List Char → Bool
  | [] => w.isEmpty
  | d :: l => leadsWith w (d :: l) || occursIn w l

/-- Python's slice `s[:n]`: the first `n` characters of `s`. -/
def takeChars (s : String) (n : Nat) : String := ⟨s.data.take n⟩

/-! ### `chatbot.py`: `DocumentSearchTool.search_documents` -/

/-- One raw hit returned by the Azure Search backend; every field is read
with `result.get(key, default)`, so each field may be absent. -/
structure RawResult where
  id : Option String
  title : Option String
  content : Option String
  source : Option String
  score : Option ℚ

/-- One formatted search result, as built by
`DocumentSearchTool.search_documents` (dict with keys
`id`, `title`, `content`, `source`, `score`). -/
structure SearchResult where
  id : String
  title : String
  content : String
  source : String
  score : ℚ
deriving DecidableEq

/-- The per-result formatting loop of `DocumentSearchTool.search_documents`:
`result.get("id", "")` etc., `result.get("@search.score", 0)`. -/
def formatResult (r : RawResult) : SearchResult :=
  { id := r.id.getD "", title := r.title.getD "", content := r.content.getD "",
    source := r.source.getD "", score := r.score.getD 0 }

/-- `DocumentSearchTool.search_documents(query, top_k)`: calls the backend
(embedding plus vector search, modelled as the oracle `backend`); on success
formats each hit, on any exception (`except Exception`) logs and returns
the empty list. -/
def search_documents (backend : String → Except String (List RawResult))
    (query : String) : List SearchResult :=
  match backend query with
  | Except.error _ => []
  | Except.ok rs => rs.map formatResult

/-! ### `chatbot.py`: workflow state and nodes -/

/-- The `ChatState` TypedDict fields the nodes read and write (the
`messages` list and `session_id` are threaded separately below). -/
structure ChatState where
  user_query : String
  search_results : List SearchResult
  context : String
  response : String
deriving DecidableEq

/-- The `greeting_words` list of `_generate_response`. -/
def greeting_words : List String :=
  ["hello", "hi", "hey", "greetings", "good morning", "good afternoon", "good evening"]

/-- The greeting test of `_generate_response`:
`any(word in query.lower() for word in greeting_words)` — substring
containment of each word in the lowercased query. -/
def isGreeting (query : String) : Bool :=
  greeting_words.any (fun w => occursIn w.data (lowerChars query))

/-- The canned greeting answer of `_generate_response`. -/
def greeting_response : String :=
  "Hello! I'm your travel assistant specializing in European destinations, Paris, budget travel tips, and family travel advice. How can I help you plan your next adventure? You can ask me about:\n\n• Budget travel tips for Europe\n• Paris attractions and recommendations\n• Family-friendly travel advice\n• European travel planning"

/-- The `_generate_response` answer when the search returned no results. -/
def no_results_response (query : String) : String :=
  "I'd love to help you with '" ++ query ++ "'! While I don't have specific information about that topic in my current travel guides, I do have great information about European destinations, Paris attractions, budget travel tips, and family travel advice. Could you try asking about one of these areas? For example:\n\n• 'What are budget travel tips for Europe?'\n• 'Tell me about Paris attractions'\n• 'How to plan family travel?'"

/-- The `_generate_response` answer when no result scores above `0.01`. -/
def low_relevance_response (query : String) : String :=
  "I couldn't find very relevant information about '" ++ query ++ "' in my travel guides. However, I have comprehensive information about European travel, Paris, budget tips, and family travel advice. What specific aspect of travel would you like to know about?"

/-- The fixed apologetic fallback returned by `RAGLangGraphBot.chat` when
the workflow raises. -/
def fallback_message : String :=
  "I apologize, but I encountered an error while processing your request. Please try again."

/-- One formatted passage of the context block built inside
`_search_documents`: title and source header, content truncated to 800
characters with an ellipsis marker when longer. -/
def context_part (r : SearchResult) : String :=
  "Document: " ++ r.title ++ "\nSource: " ++ r.source ++ "\nContent: " ++
    takeChars r.content 800 ++
    (if 800 < r.content.length then "..." else "")

/-- The list of formatted passages: `for result in search_results[:4]`. -/
def context_parts (results : List SearchResult) : List String :=
  (results.take 4).map context_part

/-- The assembled context block: `"\n\n---\n\n".join(context_parts)`. -/
def build_context (results : List SearchResult) : String :=
  String.intercalate "\n\n---\n\n" (context_parts results)

/-- Workflow node `_search_documents`: when the query is non-empty
(Python truthiness), call the retriever and assemble the context block;
otherwise leave results and context empty.  The second component counts
how many times the retriever was invoked by this node. -/
def search_documents_node (backend : String → Except String (List RawResult))
    (s : ChatState) : ChatState × Nat :=
  if s.user_query ≠ "" then
    let results := search_documents backend s.user_query
    ({ s with search_results := results, context := build_context results }, 1)
  else
    ({ s with search_results := [], context := "" }, 0)

/-- Workflow node `_generate_response`.  The oracle `llm` is the
`prompt | self.llm` chain invocation `(context, query) ↦ response`; its
`error` case is the chain raising, which this node does not catch, so the
node's result is `Except`.  The second component counts LLM invocations
(attempted, whether or not they succeeded). -/
def generate_response (llm : String → String → Except String String)
    (s : ChatState) : Except String ChatState × Nat :=
  if isGreeting s.user_query then
    (Except.ok { s with response := greeting_response }, 0)
  else if s.search_results.isEmpty then
    (Except.ok { s with response := no_results_response s.user_query }, 0)
  else if (s.search_results.filter (fun r => decide ((1 : ℚ)/100 < r.score))).isEmpty then
    (Except.ok { s with response := low_relevance_response s.user_query }, 0)
  else
    match llm s.context s.user_query with
    | Except.error e => (Except.error e, 1)
    | Except.ok text => (Except.ok { s with response := text }, 1)

/-- One conversation-turn document as persisted by
`CosmosDBManager.save_conversation`. -/
structure TurnRecord where
  session_id : String
  user_message : String
  assistant_response : String
  search_results : List SearchResult
deriving DecidableEq

/-- Workflow node `_save_conversation`: when a session id is present,
attempt `cosmos_manager.save_conversation`; a raise (`store` returning
`error`) is caught and only logged, so the node itself never fails.  The
result is the list of turn documents actually persisted by the node. -/
def save_conversation (store : TurnRecord → Except String Unit)
    (session_id : Option String) (s : ChatState) : List TurnRecord :=
  match session_id with
  | none => []
  | some sid =>
    let doc : TurnRecord :=
      { session_id := sid, user_message := s.user_query,
        assistant_response := s.response, search_results := s.search_results }
    match store doc with
    | Except.ok _ => [doc]
    | Except.error _ => []

/-- The observable outcome of one `RAGLangGraphBot.chat` call. -/
structure ChatOutcome where
  response : String
  retrieverCalls : Nat
  llmCalls : Nat
  persisted : List TurnRecord
deriving DecidableEq

/-- `RAGLangGraphBot.chat`: runs the compiled linear workflow
`extract_query → search_documents → generate_response → save_conversation`
(`_extract_query` copies the last human message, i.e. `user_input`, into
`user_query`).  An exception escaping the workflow — in particular the LLM
chain raising inside `_generate_response` — is caught by the surrounding
`try`/`except`, which returns the fixed fallback message; the workflow run
is aborted at the raising node, so `_save_conversation` never runs on that
path. -/
def chat (backend : String → Except String (List RawResult))
    (llm : String → String → Except String String)
    (store : TurnRecord → Except String Unit)
    (session_id : String) (user_input : String) : ChatOutcome :=
  let s0 : ChatState :=
    { user_query := user_input, search_results := [], context := "", response := "" }
  let step1 := search_documents_node backend s0
  match generate_response llm step1.1 with
  | (Except.error _, lcalls) =>
    { response := fallback_message, retrieverCalls := step1.2, llmCalls := lcalls,
      persisted := [] }
  | (Except.ok s2, lcalls) =>
    { response := s2.response, retrieverCalls := step1.2, llmCalls := lcalls,
      persisted := save_conversation store (some session_id) s2 }

/-! ### `cosmos_manager.py`: `CosmosDBManager.get_conversation_history` -/

/-- One document of the `conversations` container, as written by
`save_conversation` (the `type` field is called `doc_type` here because
`type` is reserved in Lean).  The Cosmos `ORDER BY c.timestamp` compares
the ISO timestamp strings, which is order-isomorphic to comparing the time
points themselves; timestamps are therefore modelled as `Nat`. -/
structure TurnDoc where
  id : String
  session_id : String
  timestamp : Nat
  user_message : String
  assistant_response : String
  doc_type : String
deriving DecidableEq

/-- The `ORDER BY c.timestamp DESC` comparison. -/
def tsDesc (a b : TurnDoc) : Bool := decide (b.timestamp ≤ a.timestamp)

/-- `CosmosDBManager.get_conversation_history(session_id, limit)`: the SQL
query selects the session's `conversation_turn` documents, orders them by
timestamp descending and keeps the first `limit` (`OFFSET 0 LIMIT @limit`);
the Python code then reverses the page (`items.reverse()`), yielding
oldest-first order.  The `store` parameter is the container's contents. -/
def get_conversation_history (store : List TurnDoc) (session_id : String)
    (limit : Nat) : List TurnDoc :=
  let matching := store.filter
    (fun d => d.session_id == session_id && d.doc_type == "conversation_turn")
  (((matching.mergeSort tsDesc).take limit)).reverse

/-! ### `doc_search_tool.py`: `doc_search_tool` -/

/-- The dict returned by `doc_search_tool`. -/
structure DocSearchOutcome where
  status : String
  results : List SearchResult
  count : Nat
deriving DecidableEq

/-- `doc_search_tool(query, top_k)`: POSTs to the search index; the oracle
`response` is the HTTP call — `error` for `requests.post` raising, `ok`
with the status code and parsed body otherwise.  Any non-200 status or
exception yields `status="error"` with an empty result list. -/
def doc_search_tool (response : Except String (Nat × List SearchResult)) :
    DocSearchOutcome :=
  match response with
  | Except.error _ => { status := "error", results := [], count := 0 }
  | Except.ok (code, body) =>
    if code == 200 then
      { status := "success", results := body, count := body.length }
    else
      { status := "error", results := [], count := 0 }

/-! ### `travel_workflow.py`: message window and graph -/

/-- `TravelAssistantWorkflow.filter_messages(messages)`: Python
`messages[-5:]`, the most recent five entries (all of them when fewer). -/
def filter_messages {α : Type} (messages : List α) : List α :=
  messages.drop (messages.length - 5)

/-- The nodes of the travel-assistant graph, plus the terminal `END`. -/
inductive WfNode where
  | brain
  | tools
  | finalModel
  | storeHistory
  | terminal
deriving DecidableEq

/-- What the conditional edge inspects: whether the last model message
carries tool calls. -/
structure ModelOutput where
  hasToolCalls : Bool
deriving DecidableEq

/-- `should_continue(state)`: routes `brain`'s output to `tools` when the
last message has tool calls, otherwise to `store_history`. -/
def should_continue (o : ModelOutput) : WfNode :=
  if o.hasToolCalls then WfNode.tools else WfNode.storeHistory

/-- The edge relation of the compiled graph, as wired in
`get_workflow_graph`: `brain` branches via `should_continue`;
`tools → final_model`, `final_model → store_history`,
`store_history → END` are unconditional edges, so the model output at those
nodes is ignored. -/
def wf_step : WfNode → ModelOutput → WfNode
  | WfNode.brain, o => should_continue o
  | WfNode.tools, _ => WfNode.finalModel
  | WfNode.finalModel, _ => WfNode.storeHistory
  | WfNode.storeHistory, _ => WfNode.terminal
  | WfNode.terminal, _ => WfNode.terminal

/-- The trace of nodes visited from `n`, consuming one model output per
step (the trace stops when the supplied outputs run out; `terminal` loops
on itself). -/
def wf_run : WfNode → List ModelOutput → List WfNode
  | n, [] => [n]
  | n, o :: os => n :: wf_run (wf_step n o) os

/-! ### `server.py`: `chat_endpoint` and the stream generator -/

/-- The `ChatResponse` model of `server.py`. -/
structure EndpointResponse where
  response : String
  session_id : String
deriving DecidableEq

/-- One record written by `ChatHistoryManager.store_message`. -/
structure StoredMessage where
  session_id : String
  user_message : String
  assistant_response : String
deriving DecidableEq

/-- The history block of `chat_endpoint`: `get_conversation_history` in a
`try`/`except` that degrades to the empty list. -/
def history_or_empty (history : Except String (List TurnDoc)) : List TurnDoc :=
  match history with
  | Except.ok h => h
  | Except.error _ => []

/-- The context block of `chat_endpoint`: `semantic_search` in a
`try`/`except` that degrades to the empty string; a non-empty search result
is wrapped in the fixed header. -/
def context_of (search : Except String String) : String :=
  match search with
  | Except.ok s => if s ≠ "" then "Relevant travel information:\n" ++ s ++ "\n\n" else ""
  | Except.error _ => ""

/-- `chat_endpoint(request)`: gathers history and context (both
best-effort), invokes the LLM (an LLM failure escapes the inner handlers
and becomes an HTTP 500, the `error` case here), then attempts
`store_message` under `except Exception: pass` — a store failure changes
only what was persisted, never the returned response.  The result pairs
the HTTP response with the list of records actually persisted. -/
def chat_endpoint (history : Except String (List TurnDoc))
    (search : Except String String)
    (llm : String → List TurnDoc → String → Except String String)
    (store : Except String Unit)
    (message : String) (session_id : String) :
    Except String (EndpointResponse × List StoredMessage) :=
  match llm (context_of search) (history_or_empty history) message with
  | Except.error e => Except.error e
  | Except.ok text =>
    let persisted := match store with
      | Except.ok _ => [{ session_id := session_id, user_message := message,
                          assistant_response := text : StoredMessage }]
      | Except.error _ => []
    Except.ok ({ response := text, session_id := session_id }, persisted)

/-- One SSE chunk of `chat_stream_endpoint` (the `StreamChunk` model,
without the constant session id field). -/
structure StreamChunk where
  content : String
  done : Bool
deriving DecidableEq

/-- The generator body of `chat_stream_endpoint`: each non-empty LLM
fragment (`if chunk:` — Python truthiness) is emitted with `done=False`;
after the fragment loop, a store attempt whose failure is caught, then the
single completion chunk `content="", done=True`.  When the body raises
(`genError = some e`, e.g. the LLM stream failing after `fragments`), the
single error chunk is emitted instead. -/
def generate_stream (fragments : List String) (genError : Option String) :
    List StreamChunk :=
  let contentChunks :=
    (fragments.filter (fun c => c ≠ "")).map (fun c => { content := c, done := false : StreamChunk })
  match genError with
  | some e => contentChunks ++ [{ content := "Error: " ++ e, done := true }]
  | none => contentChunks ++ [{ content := "", done := true }]

/-! ### Helper lemmas -/

theorem takeChars_length_le (s : String) (n : Nat) : (takeChars s n).length ≤ n := by
  show (s.data.take n).length ≤ n
  simp [List.length_take]

theorem mergeSort_tsDesc_pairwise (l : List TurnDoc) :
    (l.mergeSort tsDesc).Pairwise (fun a b => b.timestamp ≤ a.timestamp) := by
  have h := @List.sorted_mergeSort TurnDoc tsDesc
    (fun a b c hab hbc => by simp only [tsDesc, decide_eq_true_eq] at *; omega)
    (fun a b => by
      simp only [tsDesc]
      rcases Nat.le_total a.timestamp b.timestamp with h | h <;> simp [h]) l
  exact h.imp (by simp [tsDesc])

theorem search_documents_node_user_query
    (backend : String → Except String (List RawResult)) (s : ChatState) :
    (search_documents_node backend s).1.user_query = s.user_query := by
  unfold search_documents_node
  split <;> rfl

theorem generate_response_of_greeting (llm : String → String → Except String String)
    (s : ChatState) (h : isGreeting s.user_query = true) :
    generate_response llm s = (Except.ok { s with response := greeting_response }, 0) := by
  simp [generate_response, h]

/-! ### Claims -/

/-- C3: the context assembler takes at most 4 passages in rank order, each
included passage's content is truncated to at most 800 characters before
concatenation, each passage is rendered with a `Document:`/`Source:` header,
and the passages are joined with the explicit `---` delimiter. -/
theorem context_assembler_bounds (results : List SearchResult) :
    (context_parts results).length ≤ 4 ∧
    context_parts results = (results.take 4).map context_part ∧
    (∀ r : SearchResult, (takeChars r.content 800).length ≤ 800 ∧
      context_part r = "Document: " ++ r.title ++ "\nSource: " ++ r.source ++ "\nContent: " ++
        takeChars r.content 800 ++ (if 800 < r.content.length then "..." else "")) ∧
    build_context results = String.intercalate "\n\n---\n\n" (context_parts results) := by
  refine ⟨?_, rfl, fun r => ⟨takeChars_length_le r.content 800, rfl⟩, rfl⟩
  simp [context_parts, List.length_take]

/-- C4: `get_conversation_history` returns at most `limit` turns, in
non-decreasing timestamp order (oldest first), every returned document
belongs to the requested session, and a session with no history yields the
empty list rather than an error. -/
theorem history_read_bounded_ordered (store : List TurnDoc) (session_id : String)
    (limit : Nat) :
    (get_conversation_history store session_id limit).length ≤ limit ∧
    (get_conversation_history store session_id limit).Pairwise
      (fun a b => a.timestamp ≤ b.timestamp) ∧
    (∀ d ∈ get_conversation_history store session_id limit,
      d.session_id = session_id ∧ d.doc_type = "conversation_turn") ∧
    ((∀ d ∈ store, d.session_id ≠ session_id) →
      get_conversation_history store session_id limit = []) := by
  refine ⟨?_, ?_, ?_, ?_⟩
  · simp [get_conversation_history, List.length_take]
  · rw [get_conversation_history, List.pairwise_reverse]
    exact (List.Pairwise.sublist (List.take_sublist _ _)
      (mergeSort_tsDesc_pairwise _)).imp (fun h => h)
  · intro d hd
    rw [get_conversation_history, List.mem_reverse] at hd
    have hd2 := (List.take_sublist _ _).mem hd
    rw [List.mem_mergeSort, List.mem_filter] at hd2
    have hb := hd2.2
    simp only [Bool.and_eq_true, beq_iff_eq] at hb
    exact hb
  · intro hnone
    rw [get_conversation_history]
    have hfil : store.filter
        (fun d => d.session_id == session_id && d.doc_type == "conversation_turn") = [] := by
      rw [List.filter_eq_nil_iff]
      intro d hd
      simp only [Bool.and_eq_true, beq_iff_eq, not_and]
      intro hsid
      exact absurd hsid (hnone d hd)
    rw [hfil]
    simp

/-- C4 witness: the theorem applied at a one-document store whose only
document belongs to a different session, and at `limit = 2`. -/
theorem history_read_bounded_ordered_witness :
    get_conversation_history
      [{ id := "1", session_id := "other", timestamp := 3, user_message := "u",
         assistant_response := "a", doc_type := "conversation_turn" }] "s1" 2 = [] ∧
    (get_conversation_history
      [{ id := "1", session_id := "other", timestamp := 3, user_message := "u",
         assistant_response := "a", doc_type := "conversation_turn" }] "s1" 2).length ≤ 2 :=
  ⟨(history_read_bounded_ordered _ "s1" 2).2.2.2 (by decide),
   (history_read_bounded_ordered _ "s1" 2).1⟩

/-- C5: a retrieval-backend failure degrades to an empty result sequence
instead of propagating: `DocumentSearchTool.search_documents` returns `[]`
when the backend raises, and `doc_search_tool` returns `status="error"`
with empty `results` when the HTTP call raises or returns a non-200
status. -/
theorem retrieval_failure_degrades_to_empty :
    (∀ (backend : String → Except String (List RawResult)) (query e : String),
      backend query = Except.error e → search_documents backend query = []) ∧
    (∀ e : String, (doc_search_tool (Except.error e)).results = [] ∧
      (doc_search_tool (Except.error e)).status = "error") ∧
    (∀ (code : Nat) (body : List SearchResult), code ≠ 200 →
      (doc_search_tool (Except.ok (code, body))).results = [] ∧
      (doc_search_tool (Except.ok (code, body))).status = "error") := by
  refine ⟨fun backend query e h => ?_, fun e => ⟨rfl, rfl⟩, fun code body h => ?_⟩
  · simp [search_documents, h]
  · have hc : (code == 200) = false := by simpa using h
    constructor <;> simp [doc_search_tool, hc]

/-- C5 witness: the theorem applied to a backend that raises on the query
`"Paris"` and to an HTTP 500 response. -/
theorem retrieval_failure_degrades_to_empty_witness :
    search_documents (fun _ => Except.error "boom") "Paris" = [] ∧
    (doc_search_tool (Except.error "boom")).results = [] ∧
    (doc_search_tool (Except.ok (500, []))).results = [] :=
  ⟨retrieval_failure_degrades_to_empty.1 _ "Paris" "boom" rfl,
   (retrieval_failure_degrades_to_empty.2.1 "boom").1,
   (retrieval_failure_degrades_to_empty.2.2 500 [] (by decide)).1⟩

/-- C6: the conversation window passed to the model (`filter_messages`,
Python `messages[-5:]`) contains at most 5 entries, exactly
`min (length, 5)` of them, and is a suffix of the full message list — the
most recent entries in their original chronological order. -/
theorem conversation_window_bounded {α : Type} (messages : List α) :
    (filter_messages messages).length ≤ 5 ∧
    (filter_messages messages).length = min messages.length 5 ∧
    List.IsSuffix (filter_messages messages) messages := by
  refine ⟨?_, ?_, List.drop_suffix _ _⟩ <;>
    simp [filter_messages, List.length_drop] <;> omega

theorem wf_run_tools_free (os : List ModelOutput) :
    ∀ n : WfNode, n ≠ WfNode.brain → n ≠ WfNode.tools →
    (wf_run n os).countP (fun x => x == WfNode.tools) = 0 := by
  induction os with
  | nil =>
    intro n h1 h2
    cases n <;> simp_all [wf_run, List.countP_cons]
  | cons o os ih =>
    intro n h1 h2
    cases n with
    | brain => exact absurd rfl h1
    | tools => exact absurd rfl h2
    | finalModel =>
      simpa [wf_run, wf_step, List.countP_cons] using
        ih WfNode.storeHistory (by simp) (by simp)
    | storeHistory =>
      simpa [wf_run, wf_step, List.countP_cons] using
        ih WfNode.terminal (by simp) (by simp)
    | terminal =>
      simpa [wf_run, wf_step, List.countP_cons] using
        ih WfNode.terminal (by simp) (by simp)

theorem wf_run_from_tools (os : List ModelOutput) :
    (wf_run WfNode.tools os).countP (fun x => x == WfNode.tools) = 1 := by
  cases os with
  | nil => simp [wf_run, List.countP_cons]
  | cons o os =>
    simpa [wf_run, wf_step, List.countP_cons] using
      wf_run_tools_free os WfNode.finalModel (by simp) (by simp)

/-- C7: in the agentic workflow, at most one retrieval round happens per
turn: every trace from the `brain` entry point visits the `tools` node at
most once, the edges after `tools` are unconditional
(`tools → final_model → store_history → END`) whatever the model output
says, and no node other than `brain` ever routes to `tools`. -/
theorem single_retrieval_round (os : List ModelOutput) (o : ModelOutput) (n : WfNode) :
    (wf_run WfNode.brain os).countP (fun x => x == WfNode.tools) ≤ 1 ∧
    wf_step WfNode.tools o = WfNode.finalModel ∧
    wf_step WfNode.finalModel o = WfNode.storeHistory ∧
    wf_step WfNode.storeHistory o = WfNode.terminal ∧
    (wf_step n o = WfNode.tools → n = WfNode.brain) := by
  refine ⟨?_, rfl, rfl, rfl, ?_⟩
  · cases os with
    | nil => simp [wf_run, List.countP_cons]
    | cons o' os' =>
      by_cases htc : o'.hasToolCalls
      · simpa [wf_run, wf_step, should_continue, htc, List.countP_cons] using
          Nat.le_of_eq (wf_run_from_tools os')
      · have h0 := wf_run_tools_free os' WfNode.storeHistory (by simp) (by simp)
        simp [wf_run, wf_step, should_continue, htc, List.countP_cons, h0]
  · intro hstep
    cases n with
    | brain => rfl
    | tools => exact absurd hstep (by simp [wf_step])
    | finalModel => exact absurd hstep (by simp [wf_step])
    | storeHistory => exact absurd hstep (by simp [wf_step])
    | terminal => exact absurd hstep (by simp [wf_step])

/-- C7 witness: the theorem applied to a trace in which the model keeps
asking for tool calls at every opportunity; `tools` is still visited at
most once, and `brain` is the node that routed there. -/
theorem single_retrieval_round_witness :
    (wf_run WfNode.brain [{ hasToolCalls := true }, { hasToolCalls := true },
      { hasToolCalls := true }]).countP (fun x => x == WfNode.tools) ≤ 1 ∧
    WfNode.brain = WfNode.brain :=
  ⟨(single_retrieval_round [{ hasToolCalls := true }, { hasToolCalls := true },
      { hasToolCalls := true }] { hasToolCalls := true } WfNode.brain).1,
   (single_retrieval_round [{ hasToolCalls := true }, { hasToolCalls := true },
      { hasToolCalls := true }] { hasToolCalls := true } WfNode.brain).2.2.2.2 rfl⟩

/-- C8: a persistence failure after the answer is generated never reaches
the caller: `chat_endpoint` with a raising `store_message` still returns
the generated answer (with nothing persisted), and the response of
`RAGLangGraphBot.chat` does not depend on the store outcome at all
(`_save_conversation` catches and only logs the failure). -/
theorem persist_failure_nonfatal
    (history : Except String (List TurnDoc)) (search : Except String String)
    (llm : String → List TurnDoc → String → Except String String)
    (message session_id err text : String)
    (backend : String → Except String (List RawResult))
    (llm2 : String → String → Except String String)
    (st1 st2 : TurnRecord → Except String Unit)
    (user_input : String)
    (h : llm (context_of search) (history_or_empty history) message = Except.ok text) :
    chat_endpoint history search llm (Except.error err) message session_id =
      Except.ok ({ response := text, session_id := session_id }, []) ∧
    (chat backend llm2 st1 session_id user_input).response =
      (chat backend llm2 st2 session_id user_input).response := by
  constructor
  · simp [chat_endpoint, h]
  · cases hg : generate_response llm2 (search_documents_node backend
      { user_query := user_input, search_results := [], context := "",
        response := "" }).1 with
    | mk fst lcalls => cases fst <;> simp [chat, hg]

/-- C8 witness: the theorem applied with a concrete always-succeeding LLM
and a raising store. -/
theorem persist_failure_nonfatal_witness :
    chat_endpoint (Except.ok []) (Except.ok "") (fun _ _ _ => Except.ok "answer")
      (Except.error "down") "Q" "s1" =
      Except.ok ({ response := "answer", session_id := "s1" }, []) ∧
    (chat (fun _ => Except.ok []) (fun _ _ => Except.ok "x")
        (fun _ => Except.error "down") "s1" "Q").response =
      (chat (fun _ => Except.ok []) (fun _ _ => Except.ok "x")
        (fun _ => Except.ok ()) "s1" "Q").response :=
  persist_failure_nonfatal (Except.ok []) (Except.ok "") _ "Q" "s1" "down" "answer"
    _ _ _ _ "Q" rfl

/-- C9: on a successful streaming turn the emitted sequence ends with
exactly one terminal chunk — `done = true` and empty content — emitted
after all content fragments, every one of which has `done = false`. -/
theorem stream_terminal_chunk (fragments : List String) (genError : Option String)
    (h : genError = none) :
    (generate_stream fragments genError).getLast? =
      some { content := "", done := true } ∧
    (generate_stream fragments genError).filter (fun c => c.done) =
      [{ content := "", done := true }] ∧
    ∀ c ∈ (generate_stream fragments genError).dropLast, c.done = false := by
  subst h
  refine ⟨by simp [generate_stream], ?_, ?_⟩
  · simp [generate_stream, List.filter_append]
    rintro a x hx hne rfl
    rfl
  · intro c hc
    simp only [generate_stream, List.dropLast_concat, List.mem_map,
      List.mem_filter] at hc
    obtain ⟨x, hx, rfl⟩ := hc
    rfl

/-- C9 witness: the theorem applied to a three-fragment stream (one
fragment empty, hence skipped). -/
theorem stream_terminal_chunk_witness :
    (generate_stream ["Par", "is", ""] none).getLast? =
      some { content := "", done := true } ∧
    (generate_stream ["Par", "is", ""] none).filter (fun c => c.done) =
      [{ content := "", done := true }] ∧
    ∀ c ∈ (generate_stream ["Par", "is", ""] none).dropLast, c.done = false :=
  stream_terminal_chunk ["Par", "is", ""] none rfl

/-- C10: the greeting check is substring containment over the lowercased
message: whenever `isGreeting` holds — some configured greeting word occurs
as a substring of the lowercased query, e.g. "hi" inside "hiking in
Chile" — `chat` answers with the fixed canned greeting text and the LLM is
never invoked for that turn. -/
theorem greeting_substring_short_circuit
    (backend : String → Except String (List RawResult))
    (llm : String → String → Except String String)
    (store : TurnRecord → Except String Unit)
    (session_id query : String)
    (h : isGreeting query = true) :
    (chat backend llm store session_id query).response = greeting_response ∧
    (chat backend llm store session_id query).llmCalls = 0 := by
  have hq : isGreeting (search_documents_node backend
      { user_query := query, search_results := [], context := "",
        response := "" }).1.user_query = true := by
    rw [search_documents_node_user_query]
    exact h
  have hgen := generate_response_of_greeting llm _ hq
  constructor <;> simp [chat, hgen]

/-- C10 witness: the theorem applied at the query "hiking in Chile", a
non-greeting sentence that nevertheless contains "hi" as a substring. -/
theorem greeting_substring_short_circuit_witness :
    (chat (fun _ => Except.ok []) (fun _ _ => Except.ok "LLM") (fun _ => Except.ok ())
        "s1" "hiking in Chile").response = greeting_response ∧
    (chat (fun _ => Except.ok []) (fun _ _ => Except.ok "LLM") (fun _ => Except.ok ())
        "s1" "hiking in Chile").llmCalls = 0 :=
  greeting_substring_short_circuit _ _ _ "s1" "hiking in Chile" (by decide)

/-- C1 counterexample: on the greeting message "Hello!" the retriever IS
invoked — the linear workflow runs `search_documents` before the greeting
check inside `_generate_response` — so the claim that the loop skips
retrieval entirely for greeting turns is false: `retrieverCalls` is `1`,
not `0`, even though the canned greeting answer is returned. -/
theorem greeting_skips_retrieval_counterexample :
    (chat (fun _ => Except.ok []) (fun _ _ => Except.ok "LLM") (fun _ => Except.ok ())
        "s1" "Hello!").retrieverCalls = 1 ∧
    ¬ ((chat (fun _ => Except.ok []) (fun _ _ => Except.ok "LLM") (fun _ => Except.ok ())
        "s1" "Hello!").retrieverCalls = 0) ∧
    (chat (fun _ => Except.ok []) (fun _ _ => Except.ok "LLM") (fun _ => Except.ok ())
        "s1" "Hello!").response = greeting_response := by
  refine ⟨rfl, by decide, rfl⟩

/-- C1 (amended): for every greeting turn with a non-empty message, `chat`
routes to the canned greeting answer without invoking the LLM, but the
retriever is still invoked exactly once for that turn — retrieval runs
unconditionally before the greeting check, and no `retrieval_used` flag
exists on the persisted turn (the raw `search_results` are stored
instead). -/
theorem greeting_canned_answer_after_retrieval
    (backend : String → Except String (List RawResult))
    (llm : String → String → Except String String)
    (store : TurnRecord → Except String Unit)
    (session_id query : String)
    (hg : isGreeting query = true) (hne : query ≠ "") :
    (chat backend llm store session_id query).response = greeting_response ∧
    (chat backend llm store session_id query).llmCalls = 0 ∧
    (chat backend llm store session_id query).retrieverCalls = 1 := by
  have hq : isGreeting (search_documents_node backend
      { user_query := query, search_results := [], context := "",
        response := "" }).1.user_query = true := by
    rw [search_documents_node_user_query]
    exact hg
  have hgen := generate_response_of_greeting llm _ hq
  have hret : (search_documents_node backend
      { user_query := query, search_results := [], context := "",
        response := "" }).2 = 1 := by
    simp [search_documents_node, hne]
  refine ⟨?_, ?_, ?_⟩ <;> simp [chat, hgen, hret]

/-- C1 witness: the amended theorem applied at the greeting "Hello!". -/
theorem greeting_canned_answer_after_retrieval_witness :
    (chat (fun _ => Except.ok []) (fun _ _ => Except.ok "LLM") (fun _ => Except.ok ())
        "s1" "Hello!").response = greeting_response ∧
    (chat (fun _ => Except.ok []) (fun _ _ => Except.ok "LLM") (fun _ => Except.ok ())
        "s1" "Hello!").llmCalls = 0 ∧
    (chat (fun _ => Except.ok []) (fun _ _ => Except.ok "LLM") (fun _ => Except.ok ())
        "s1" "Hello!").retrieverCalls = 1 :=
  greeting_canned_answer_after_retrieval _ _ _ "s1" "Hello!" (by decide) (by decide)

/-- A concrete relevant passage (score `1 > 0.01`) used in the generation
failure scenario. -/
def parisRaw : RawResult :=
  { id := some "1", title := some "Paris Guide",
    content := some "Paris has many attractions.", source := some "doc1",
    score := some 1 }

/-- C2 counterexample: with a backend returning one relevant passage and an
LLM that fails on every attempt, `chat` on "Tell me about Paris" returns
the fixed fallback message but persists NO turn — not exactly one turn
with the fallback as `assistant_response`: the generation exception aborts
the workflow before `_save_conversation` runs. -/
theorem generation_failure_counterexample :
    (chat (fun _ => Except.ok [parisRaw]) (fun _ _ => Except.error "GenerationFailed")
        (fun _ => Except.ok ()) "s1" "Tell me about Paris").response = fallback_message ∧
    (chat (fun _ => Except.ok [parisRaw]) (fun _ _ => Except.error "GenerationFailed")
        (fun _ => Except.ok ()) "s1" "Tell me about Paris").persisted = [] ∧
    ¬ ((chat (fun _ => Except.ok [parisRaw]) (fun _ _ => Except.error "GenerationFailed")
        (fun _ => Except.ok ()) "s1" "Tell me about Paris").persisted.length = 1) := by
  have hfg : isGreeting "Tell me about Paris" = false := by decide
  have hsc : (decide (((100 : ℚ))⁻¹ < 1)) = true := by norm_num
  refine ⟨?_, ?_, ?_⟩ <;>
    simp [chat, search_documents_node, search_documents, generate_response, hfg,
      formatResult, parisRaw, List.filter, hsc]

/-- C2 (amended): when the Answerer fails on every attempt on a
non-greeting turn that reached generation, `chat` still returns the fixed,
non-empty apologetic fallback string to the caller — but NO turn is
persisted for that turn (zero, not one): the exception aborts the workflow
before the save step. -/
theorem generation_failure_fallback_without_persist
    (backend : String → Except String (List RawResult))
    (llm : String → String → Except String String)
    (store : TurnRecord → Except String Unit)
    (session_id query e : String) (rs : List RawResult)
    (hg : isGreeting query = false)
    (hq : query ≠ "")
    (hb : backend query = Except.ok rs)
    (hrel : ((rs.map formatResult).filter
      (fun r => decide ((1 : ℚ)/100 < r.score))).isEmpty = false)
    (hllm : ∀ c q, llm c q = Except.error e) :
    (chat backend llm store session_id query).response = fallback_message ∧
    (chat backend llm store session_id query).persisted = [] ∧
    fallback_message ≠ "" := by
  have hstep : search_documents_node backend
      { user_query := query, search_results := [], context := "", response := "" } =
      ({ user_query := query, search_results := rs.map formatResult,
         context := build_context (rs.map formatResult), response := "" }, 1) := by
    simp [search_documents_node, hq, search_documents, hb]
  have hne : (rs.map formatResult).isEmpty = false := by
    cases hmap : rs.map formatResult with
    | nil =>
      rw [hmap] at hrel
      simp [List.filter] at hrel
    | cons a l => simp
  have hrel2 := hrel
  simp at hrel2
  have hgen : generate_response llm
      { user_query := query, search_results := rs.map formatResult,
        context := build_context (rs.map formatResult), response := "" } =
      (Except.error e, 1) := by
    simp [generate_response, hg, hne, hllm, hrel2]
  refine ⟨?_, ?_, by decide⟩ <;> simp [chat, hstep, hgen]

/-- C2 witness: the amended theorem applied with a concrete relevant
passage and an LLM failing with `GenerationFailed` on every attempt. -/
theorem generation_failure_fallback_without_persist_witness :
    (chat (fun _ => Except.ok [parisRaw]) (fun _ _ => Except.error "GenerationFailed")
        (fun _ => Except.error "store down") "s2" "Tell me about Paris").response =
      fallback_message ∧
    (chat (fun _ => Except.ok [parisRaw]) (fun _ _ => Except.error "GenerationFailed")
        (fun _ => Except.error "store down") "s2" "Tell me about Paris").persisted = [] ∧
    fallback_message ≠ "" :=
  generation_failure_fallback_without_persist _ _ _ "s2" "Tell me about Paris"
    "GenerationFailed" [parisRaw] (by decide) (by decide) rfl
    (by simp [parisRaw, formatResult]; norm_num)
    (fun c q => rfl)
